import Mathlib

/-!
# ERC20 token client (`api.go`): embedding and properties

`api.go` is a thin wrapper: every method of `API` converts its string arguments
with `common.HexToAddress`, builds call or transaction options, and makes one
call on the contract binding `api.tokenContract`.

The embedding keeps the calls that leave the package (`ethclient.Dial`,
`NewStandardToken` and the six methods of the binding) as events of a small
program type `Prog`.  A `Backend` answers every event from a state of its own,
and `Prog.run` records the events in the order they happen, so that "how often
and with which arguments was the backend called" is a statement about the
recorded list.

Go returns `(value, error)` pairs in which both halves may be nil; they are
kept as pairs of options (`Returned`), not collapsed into a sum.
-/

namespace Erc20Api

/-! ## Data -/

/-- A Go `error` value; a nil error is `none : Option Error`. -/
structure Error where
  msg : String
deriving DecidableEq, Repr

/-- An account identifier (`common.Address`, a `[20]byte`), as its list of bytes. -/
structure Address where
  bytes : List Nat
deriving DecidableEq, Repr

/-- Go's zero value of `common.Address`. -/
def Address.zero : Address := ⟨List.replicate 20 0⟩

/-- A `*big.Int` is `Option BigInt`, nil being `none`. -/
abbrev BigInt := Int

/-- A `context.Context` value (an interface, so callers hold `Option Context`). -/
structure Context where
  id : Nat
deriving DecidableEq, Repr

/-- The object behind a `*ethclient.Client`. -/
structure Client where
  ref : Nat
deriving DecidableEq, Repr

/-- The object behind a `*StandardToken` (the generated contract binding). -/
structure StandardToken where
  ref : Nat
deriving DecidableEq, Repr

/-- The object behind a `*types.Transaction`. -/
structure Transaction where
  hash : Nat
deriving DecidableEq, Repr

/-- The curve point of `ecdsa.PublicKey`. -/
structure PublicKey where
  X : Int
  Y : Int
deriving DecidableEq, Repr

/-- The key behind a non-nil `*ecdsa.PrivateKey`. -/
structure PrivateKey where
  PublicKey : PublicKey
  D : Int
deriving DecidableEq, Repr

/-- Go's `(T, error)` result pair: a possibly nil value and a possibly nil error. -/
structure Returned (α : Type) where
  value : Option α
  err : Option Error
deriving DecidableEq, Repr

/-- The struct `bind.CallOpts`.  `getCallOpts` writes `Context` and `Pending`;
a field its literal leaves out has Go's zero value. -/
structure CallOpts where
  Pending : Bool
  From : Address
  BlockNumber : Option BigInt
  Context : Option Context
deriving DecidableEq, Repr

/-- The struct `bind.TransactOpts`.  `Signer` is a closure in Go; it is
identified here by the key it closes over, `none` being a nil function. -/
structure TransactOpts where
  From : Address
  Nonce : Option BigInt
  Signer : Option PrivateKey
  Value : Option BigInt
  GasPrice : Option BigInt
  GasLimit : Nat
  Context : Option Context
deriving DecidableEq, Repr

/-- The struct `API` (api.go:23-28). -/
structure API where
  client : Option Client
  gasPrice : Option BigInt
  tokenContract : Option StandardToken
deriving DecidableEq, Repr

/-! ## Calls that leave the package -/

/-- One call made by `api.go` into code outside the file: `ethclient.Dial`,
`NewStandardToken`, or a method of the binding with its receiver and arguments. -/
inductive Call where
  | Dial (rawurl : String)
  | NewStandardToken (address : Address) (backend : Option Client)
  | BalanceOf (recv : Option StandardToken) (opts : CallOpts) (owner : Address)
  | Allowance (recv : Option StandardToken) (opts : CallOpts) (owner : Address)
      (spender : Address)
  | TotalSupply (recv : Option StandardToken) (opts : CallOpts)
  | Approve (recv : Option StandardToken) (opts : TransactOpts) (spender : Address)
      (value : Option BigInt)
  | Transfer (recv : Option StandardToken) (opts : TransactOpts) (toAddr : Address)
      (value : Option BigInt)
  | TransferFrom (recv : Option StandardToken) (opts : TransactOpts) (fromAddr : Address)
      (toAddr : Address) (value : Option BigInt)
deriving DecidableEq, Repr

/-- The Go result type of each call. -/
def Call.Ret : Call → Type
  | .Dial _ => Returned Client
  | .NewStandardToken _ _ => Returned StandardToken
  | .BalanceOf _ _ _ => Returned BigInt
  | .Allowance _ _ _ _ => Returned BigInt
  | .TotalSupply _ _ => Returned BigInt
  | .Approve _ _ _ _ => Returned Transaction
  | .Transfer _ _ _ _ => Returned Transaction
  | .TransferFrom _ _ _ _ _ => Returned Transaction

/-- A computation that may call out of the package: it returns, or makes a
call and continues with the answer. -/
inductive Prog (α : Type) where
  | ret : α → Prog α
  | call : (c : Call) → (c.Ret → Prog α) → Prog α

/-- Everything outside the package: it answers each call from its state `σ`
and moves to a new state. -/
abbrev Backend (σ : Type) := (c : Call) → σ → c.Ret × σ

/-- What running a computation against a backend gives: the returned value,
the final backend state and the calls made, oldest first. -/
structure Outcome (σ α : Type) where
  result : α
  state : σ
  calls : List Call

/-- Runs a computation against backend `b`, appending every call to `log`. -/
def Prog.runFrom {σ α : Type} (b : Backend σ) : Prog α → σ → List Call → Outcome σ α
  | .ret a, s, log => ⟨a, s, log⟩
  | .call c k, s, log => Prog.runFrom b (k (b c s).1) (b c s).2 (log ++ [c])

/-- Runs a computation against backend `b` from state `s` with an empty log. -/
def Prog.run {σ α : Type} (b : Backend σ) (p : Prog α) (s : σ) : Outcome σ α :=
  Prog.runFrom b p s []

/-! ## Library functions used by `api.go` -/

/-- The bytes of a Go string (Go strings are UTF-8 byte sequences). -/
def goBytes (s : String) : List Nat :=
  (s.data.flatMap String.utf8EncodeChar).map UInt8.toNat

/-- The value of one hex digit byte, `none` for any other byte
(`fromHexChar` of Go's `encoding/hex`). -/
def fromHexChar (c : Nat) : Option Nat :=
  if 48 ≤ c ∧ c ≤ 57 then some (c - 48)
  else if 97 ≤ c ∧ c ≤ 102 then some (c - 97 + 10)
  else if 65 ≤ c ∧ c ≤ 70 then some (c - 65 + 10)
  else none

/-- Decodes pairs of hex digits into bytes and stops at the first pair that is
not two hex digits, keeping what was decoded (`common.Hex2Bytes`, which drops
the error of `hex.DecodeString`). -/
def Hex2Bytes : List Nat → List Nat
  | a :: b :: rest =>
    match fromHexChar a, fromHexChar b with
    | some x, some y => (x * 16 + y) :: Hex2Bytes rest
    | _, _ => []
  | _ => []

/-- Whether the bytes start with `0x` or `0X`. -/
def has0x : List Nat → Bool
  | 48 :: c :: _ => c == 120 || c == 88
  | _ => false

/-- Drops a leading `0x`, pads an odd number of digits with a leading `0`, and
decodes (`common.FromHex`). -/
def FromHex (s : String) : List Nat :=
  let b := goBytes s
  let b := if has0x b then b.drop 2 else b
  let b := if b.length % 2 = 1 then 48 :: b else b
  Hex2Bytes b

/-- Keeps the last 20 bytes of a longer input and left-pads a shorter one with
zero bytes (`common.BytesToAddress`). -/
def BytesToAddress (b : List Nat) : Address :=
  let b := if b.length > 20 then b.drop (b.length - 20) else b
  ⟨List.replicate (20 - b.length) 0 ++ b⟩

/-- Modelled from the spec: `common.HexToAddress` belongs to the imported
go-ethereum library and its body is not among the sources of this repository.
The spec describes an address as a 20-byte identifier written as a
40-hex-character string, optionally `0x`-prefixed; on such a string this
function returns the 20 bytes the digits spell.  api.go uses the result
directly as an argument, so the function is total and returns no error;
outside the well-formed strings it follows the library
(`BytesToAddress (FromHex s)`), and the properties below use of such a string
only that an address is returned for it. -/
def HexToAddress (s : String) : Address :=
  BytesToAddress (FromHex s)

/-- The lowercase hex digit of a value below 16 (`hextable` of `encoding/hex`). -/
def hexDigit (v : Nat) : Char :=
  if v < 10 then Char.ofNat (48 + v) else Char.ofNat (97 + (v - 10))

/-- The 40 lowercase hex digits of an address with a leading `0x`.  The
library's `Address.Hex` differs from this rendering in letter case only (it
capitalises some letters as a checksum). -/
def Address.Hex (a : Address) : String :=
  ⟨'0' :: 'x' :: a.bytes.flatMap fun v => [hexDigit (v / 16), hexDigit (v % 16)]⟩

/-- The digits of an address string: the string without a leading `0x`. -/
def hexDigits (s : String) : List Char :=
  match s.data with
  | '0' :: 'x' :: rest => rest
  | cs => cs

/-- The characters that are hex digits. -/
def hexChars : List Char := "0123456789abcdefABCDEF".data

/-- A well-formed address string as the spec describes it: 40 hex characters,
optionally `0x`-prefixed.  A string for which this is false is malformed
(wrong length, or a character that is not a hex digit). -/
def isHexAddress (s : String) : Bool :=
  (hexDigits s).length == 40 && (hexDigits s).all fun c => decide (c ∈ hexChars)

/-- Modelled from the spec: `bind.NewKeyedTransactor` belongs to the imported
go-ethereum library and its body is not among the sources of this repository.
The spec has the request signed with the caller's key and names no other
setting than the gas limit, which `getTxOpts` writes.  It returns transaction
options whose sender is the address of the key and whose signer signs with the
key; every other field has Go's zero value.  `PubkeyToAddress` is the library's
`crypto.PubkeyToAddress` (a Keccak-256 hash of the curve point), taken as a
parameter. -/
def NewKeyedTransactor (PubkeyToAddress : PublicKey → Address) (key : PrivateKey) :
    TransactOpts :=
  { From := PubkeyToAddress key.PublicKey
    Nonce := none
    Signer := some key
    Value := none
    GasPrice := none
    GasLimit := 0
    Context := none }

/-! ## `api.go` -/

/-- The function `getTxOpts` (api.go:100-104). -/
def getTxOpts (PubkeyToAddress : PublicKey → Address) (key : PrivateKey) (gasLimit : Nat) :
    TransactOpts :=
  let opts := NewKeyedTransactor PubkeyToAddress key
  { opts with GasLimit := gasLimit }

/-- The function `getCallOpts` (api.go:106-111). -/
def getCallOpts (ctx : Option Context) : CallOpts :=
  { Context := ctx
    Pending := false
    From := Address.zero
    BlockNumber := none }

/-- The function `NewAPI` (api.go:30-47). -/
def NewAPI (ethEndpoint : String) (gasPrice : Option BigInt) (tokenContractAddress : String) :
    Prog (Returned API) :=
  Prog.call (Call.Dial ethEndpoint) fun (r : Returned Client) =>
    if r.err ≠ none then Prog.ret ⟨none, r.err⟩
    else
      Prog.call (Call.NewStandardToken (HexToAddress tokenContractAddress) r.value)
        fun (t : Returned StandardToken) =>
          if t.err ≠ none then Prog.ret ⟨none, t.err⟩
          else
            Prog.ret
              ⟨some { client := r.value, gasPrice := gasPrice, tokenContract := t.value }, none⟩

/-- The method `API.BalanceOf` (api.go:49-55); the second component is the
receiver object after the call. -/
def API.BalanceOf (api : API) (ctx : Option Context) (address : String) :
    Prog (Returned BigInt × API) :=
  Prog.call (Call.BalanceOf api.tokenContract (getCallOpts ctx) (HexToAddress address))
    fun (r : Returned BigInt) =>
      if r.err ≠ none then Prog.ret (⟨none, r.err⟩, api)
      else Prog.ret (⟨r.value, none⟩, api)

/-- The method `API.AllowanceOf` (api.go:57-63). -/
def API.AllowanceOf (api : API) (ctx : Option Context) (fromAddr : String) (toAddr : String) :
    Prog (Returned BigInt × API) :=
  Prog.call
    (Call.Allowance api.tokenContract (getCallOpts ctx) (HexToAddress fromAddr)
      (HexToAddress toAddr))
    fun (r : Returned BigInt) =>
      if r.err ≠ none then Prog.ret (⟨none, r.err⟩, api)
      else Prog.ret (⟨r.value, none⟩, api)

/-- The method `API.Approve` (api.go:65-72).  The argument `ctx` is not used
by the body; the last `return tx, err` returns the error variable itself. -/
def API.Approve (PubkeyToAddress : PublicKey → Address) (api : API) (_ctx : Option Context)
    (key : PrivateKey) (toAddr : String) (amount : Option BigInt) :
    Prog (Returned Transaction × API) :=
  let opts := getTxOpts PubkeyToAddress key 48000
  Prog.call (Call.Approve api.tokenContract opts (HexToAddress toAddr) amount)
    fun (r : Returned Transaction) =>
      if r.err ≠ none then Prog.ret (⟨none, r.err⟩, api)
      else Prog.ret (⟨r.value, r.err⟩, api)

/-- The method `API.Transfer` (api.go:74-81). -/
def API.Transfer (PubkeyToAddress : PublicKey → Address) (api : API) (_ctx : Option Context)
    (key : PrivateKey) (toAddr : String) (amount : Option BigInt) :
    Prog (Returned Transaction × API) :=
  let opts := getTxOpts PubkeyToAddress key 40000
  Prog.call (Call.Transfer api.tokenContract opts (HexToAddress toAddr) amount)
    fun (r : Returned Transaction) =>
      if r.err ≠ none then Prog.ret (⟨none, r.err⟩, api)
      else Prog.ret (⟨r.value, r.err⟩, api)

/-- The method `API.TransferFrom` (api.go:83-90). -/
def API.TransferFrom (PubkeyToAddress : PublicKey → Address) (api : API)
    (_ctx : Option Context) (key : PrivateKey) (fromAddr : String) (toAddr : String)
    (amount : Option BigInt) : Prog (Returned Transaction × API) :=
  let opts := getTxOpts PubkeyToAddress key 50000
  Prog.call
    (Call.TransferFrom api.tokenContract opts (HexToAddress fromAddr) (HexToAddress toAddr)
      amount)
    fun (r : Returned Transaction) =>
      if r.err ≠ none then Prog.ret (⟨none, r.err⟩, api)
      else Prog.ret (⟨r.value, r.err⟩, api)

/-- The method `API.TotalSupply` (api.go:92-98). -/
def API.TotalSupply (api : API) (ctx : Option Context) : Prog (Returned BigInt × API) :=
  Prog.call (Call.TotalSupply api.tokenContract (getCallOpts ctx))
    fun (r : Returned BigInt) =>
      if r.err ≠ none then Prog.ret (⟨none, r.err⟩, api)
      else Prog.ret (⟨r.value, none⟩, api)

/-! ## Example backends and inputs -/

/-- A backend that accepts every call; its state counts the calls answered. -/
def okBackend : Backend Nat := fun c s =>
  match c with
  | .Dial _ => (⟨some ⟨1⟩, none⟩, s + 1)
  | .NewStandardToken _ _ => (⟨some ⟨2⟩, none⟩, s + 1)
  | .BalanceOf _ _ _ => (⟨some 7, none⟩, s + 1)
  | .Allowance _ _ _ _ => (⟨some 3, none⟩, s + 1)
  | .TotalSupply _ _ => (⟨some 100, none⟩, s + 1)
  | .Approve _ _ _ _ => (⟨some ⟨11⟩, none⟩, s + 1)
  | .Transfer _ _ _ _ => (⟨some ⟨12⟩, none⟩, s + 1)
  | .TransferFrom _ _ _ _ _ => (⟨some ⟨13⟩, none⟩, s + 1)

/-- A backend on which every call fails; the binding methods hand back a
value next to the error. -/
def downBackend : Backend Nat := fun c s =>
  match c with
  | .Dial _ => (⟨none, some ⟨"dial: connection refused"⟩⟩, s + 1)
  | .NewStandardToken _ _ => (⟨none, some ⟨"bind: bad abi"⟩⟩, s + 1)
  | .BalanceOf _ _ _ => (⟨some 0, some ⟨"timeout"⟩⟩, s + 1)
  | .Allowance _ _ _ _ => (⟨some 0, some ⟨"timeout"⟩⟩, s + 1)
  | .TotalSupply _ _ => (⟨some 0, some ⟨"timeout"⟩⟩, s + 1)
  | .Approve _ _ _ _ => (⟨some ⟨0⟩, some ⟨"timeout"⟩⟩, s + 1)
  | .Transfer _ _ _ _ => (⟨some ⟨0⟩, some ⟨"timeout"⟩⟩, s + 1)
  | .TransferFrom _ _ _ _ _ => (⟨some ⟨0⟩, some ⟨"timeout"⟩⟩, s + 1)

/-- A backend whose state is one number: reads return it and leave it alone,
every other call adds one to it. -/
def ledgerBackend : Backend Int := fun c s =>
  match c with
  | .Dial _ => (⟨some ⟨1⟩, none⟩, s + 1)
  | .NewStandardToken _ _ => (⟨some ⟨2⟩, none⟩, s + 1)
  | .BalanceOf _ _ _ => (⟨some s, none⟩, s)
  | .Allowance _ _ _ _ => (⟨some s, none⟩, s)
  | .TotalSupply _ _ => (⟨some s, none⟩, s)
  | .Approve _ _ _ _ => (⟨some ⟨11⟩, none⟩, s + 1)
  | .Transfer _ _ _ _ => (⟨some ⟨12⟩, none⟩, s + 1)
  | .TransferFrom _ _ _ _ _ => (⟨some ⟨13⟩, none⟩, s + 1)

/-- A backend on which dialling succeeds and every later call fails. -/
def unboundBackend : Backend Nat := fun c s =>
  match c with
  | .Dial _ => (⟨some ⟨1⟩, none⟩, s + 1)
  | c => downBackend c s

/-- Two well-formed address strings. -/
def sampleFrom : String := "0x00000000000000000000000000000000000000bb"

/-- The second address string, without the leading `0x`. -/
def sampleTo : String := "00000000000000000000000000000000000000aa"

/-- A client as `NewAPI` builds it against `okBackend`. -/
def sampleAPI : API := ⟨some ⟨1⟩, some 5, some ⟨2⟩⟩

/-- A signing key. -/
def sampleKey : PrivateKey := ⟨⟨3, 4⟩, 9⟩

/-- A stand-in for the address derivation, used in examples only. -/
def sampleAddressOf : PublicKey → Address := fun k => ⟨List.replicate 19 0 ++ [k.X.toNat]⟩

/-! ## Properties -/

/-- C1: against any backend and for every key, address strings and amount,
`Transfer` makes exactly one backend call, a `Transfer` submission whose options
carry gas limit 40000; `Approve` makes exactly one with gas limit 48000;
`TransferFrom` exactly one with gas limit 50000, whatever the arguments and the
client configuration are. -/
theorem write_ops_submit_once_with_fixed_gas_limit {σ : Type} (P : PublicKey → Address)
    (b : Backend σ) (s : σ) (api : API) (ctx : Option Context) (key : PrivateKey)
    (fromAddr toAddr : String) (amount : Option BigInt) :
    ((Prog.run b (API.Transfer P api ctx key toAddr amount) s).calls =
        [Call.Transfer api.tokenContract (getTxOpts P key 40000) (HexToAddress toAddr) amount]
      ∧ (getTxOpts P key 40000).GasLimit = 40000) ∧
    ((Prog.run b (API.Approve P api ctx key toAddr amount) s).calls =
        [Call.Approve api.tokenContract (getTxOpts P key 48000) (HexToAddress toAddr) amount]
      ∧ (getTxOpts P key 48000).GasLimit = 48000) ∧
    ((Prog.run b (API.TransferFrom P api ctx key fromAddr toAddr amount) s).calls =
        [Call.TransferFrom api.tokenContract (getTxOpts P key 50000) (HexToAddress fromAddr)
          (HexToAddress toAddr) amount]
      ∧ (getTxOpts P key 50000).GasLimit = 50000) := by
  refine ⟨⟨?_, rfl⟩, ⟨?_, rfl⟩, ⟨?_, rfl⟩⟩
  · simp only [Prog.run, API.Transfer, Prog.runFrom]
    split <;> rfl
  · simp only [Prog.run, API.Approve, Prog.runFrom]
    split <;> rfl
  · simp only [Prog.run, API.TransferFrom, Prog.runFrom]
    split <;> rfl

/-- C3: for each of the six operations and every backend, when the backend
call of the operation returns error `e`, the operation returns a nil result
together with exactly `e`, and that call is the only call made. -/
theorem backend_error_returned_unchanged {σ : Type} (P : PublicKey → Address)
    (b : Backend σ) (s : σ) (api : API) (ctx : Option Context) (key : PrivateKey)
    (fromAddr toAddr : String) (amount : Option BigInt) (e : Error) :
    ((b (Call.BalanceOf api.tokenContract (getCallOpts ctx) (HexToAddress toAddr)) s).1.err
        = some e →
      (Prog.run b (API.BalanceOf api ctx toAddr) s).result.1 = ⟨none, some e⟩ ∧
      (Prog.run b (API.BalanceOf api ctx toAddr) s).calls =
        [Call.BalanceOf api.tokenContract (getCallOpts ctx) (HexToAddress toAddr)]) ∧
    ((b (Call.Allowance api.tokenContract (getCallOpts ctx) (HexToAddress fromAddr)
          (HexToAddress toAddr)) s).1.err = some e →
      (Prog.run b (API.AllowanceOf api ctx fromAddr toAddr) s).result.1 = ⟨none, some e⟩ ∧
      (Prog.run b (API.AllowanceOf api ctx fromAddr toAddr) s).calls =
        [Call.Allowance api.tokenContract (getCallOpts ctx) (HexToAddress fromAddr)
          (HexToAddress toAddr)]) ∧
    ((b (Call.TotalSupply api.tokenContract (getCallOpts ctx)) s).1.err = some e →
      (Prog.run b (API.TotalSupply api ctx) s).result.1 = ⟨none, some e⟩ ∧
      (Prog.run b (API.TotalSupply api ctx) s).calls =
        [Call.TotalSupply api.tokenContract (getCallOpts ctx)]) ∧
    ((b (Call.Approve api.tokenContract (getTxOpts P key 48000) (HexToAddress toAddr)
          amount) s).1.err = some e →
      (Prog.run b (API.Approve P api ctx key toAddr amount) s).result.1 = ⟨none, some e⟩ ∧
      (Prog.run b (API.Approve P api ctx key toAddr amount) s).calls =
        [Call.Approve api.tokenContract (getTxOpts P key 48000) (HexToAddress toAddr)
          amount]) ∧
    ((b (Call.Transfer api.tokenContract (getTxOpts P key 40000) (HexToAddress toAddr)
          amount) s).1.err = some e →
      (Prog.run b (API.Transfer P api ctx key toAddr amount) s).result.1 = ⟨none, some e⟩ ∧
      (Prog.run b (API.Transfer P api ctx key toAddr amount) s).calls =
        [Call.Transfer api.tokenContract (getTxOpts P key 40000) (HexToAddress toAddr)
          amount]) ∧
    ((b (Call.TransferFrom api.tokenContract (getTxOpts P key 50000) (HexToAddress fromAddr)
          (HexToAddress toAddr) amount) s).1.err = some e →
      (Prog.run b (API.TransferFrom P api ctx key fromAddr toAddr amount) s).result.1
        = ⟨none, some e⟩ ∧
      (Prog.run b (API.TransferFrom P api ctx key fromAddr toAddr amount) s).calls =
        [Call.TransferFrom api.tokenContract (getTxOpts P key 50000) (HexToAddress fromAddr)
          (HexToAddress toAddr) amount]) := by
  refine ⟨?_, ?_, ?_, ?_, ?_, ?_⟩ <;> intro h
  · simp [Prog.run, API.BalanceOf, Prog.runFrom, h]
  · simp [Prog.run, API.AllowanceOf, Prog.runFrom, h]
  · simp [Prog.run, API.TotalSupply, Prog.runFrom, h]
  · simp [Prog.run, API.Approve, Prog.runFrom, h]
  · simp [Prog.run, API.Transfer, Prog.runFrom, h]
  · simp [Prog.run, API.TransferFrom, Prog.runFrom, h]

/-- Witness of C3 on the failing backend, whose binding methods return a value
next to the error `timeout`: every operation returns nil and `timeout` after
one call. -/
theorem backend_error_returned_unchanged_witness :
    ((downBackend (Call.BalanceOf sampleAPI.tokenContract (getCallOpts none)
        (HexToAddress sampleTo)) 0).1.value = some 0 ∧
      (downBackend (Call.BalanceOf sampleAPI.tokenContract (getCallOpts none)
        (HexToAddress sampleTo)) 0).1.err = some ⟨"timeout"⟩) ∧
    (Prog.run downBackend (API.BalanceOf sampleAPI none sampleTo) 0).result.1
      = ⟨none, some ⟨"timeout"⟩⟩ ∧
    (Prog.run downBackend (API.AllowanceOf sampleAPI none sampleFrom sampleTo) 0).result.1
      = ⟨none, some ⟨"timeout"⟩⟩ ∧
    (Prog.run downBackend (API.TotalSupply sampleAPI none) 0).result.1
      = ⟨none, some ⟨"timeout"⟩⟩ ∧
    (Prog.run downBackend
        (API.Approve sampleAddressOf sampleAPI none sampleKey sampleTo (some 10)) 0).result.1
      = ⟨none, some ⟨"timeout"⟩⟩ ∧
    (Prog.run downBackend
        (API.Transfer sampleAddressOf sampleAPI none sampleKey sampleTo (some 10)) 0).result.1
      = ⟨none, some ⟨"timeout"⟩⟩ ∧
    (Prog.run downBackend
        (API.TransferFrom sampleAddressOf sampleAPI none sampleKey sampleFrom sampleTo
          (some 10)) 0).result.1
      = ⟨none, some ⟨"timeout"⟩⟩ ∧
    (Prog.run downBackend
        (API.TransferFrom sampleAddressOf sampleAPI none sampleKey sampleFrom sampleTo
          (some 10)) 0).calls.length = 1 :=
  have h := backend_error_returned_unchanged sampleAddressOf downBackend 0 sampleAPI none
    sampleKey sampleFrom sampleTo (some 10) ⟨"timeout"⟩
  ⟨⟨by decide, by decide⟩, (h.1 (by decide)).1, (h.2.1 (by decide)).1,
    (h.2.2.1 (by decide)).1, (h.2.2.2.1 (by decide)).1, (h.2.2.2.2.1 (by decide)).1,
    (h.2.2.2.2.2 (by decide)).1, by rw [(h.2.2.2.2.2 (by decide)).2]; rfl⟩

/-- C4: each operation is a call-through.  When the backend call succeeds (nil
error) with value `v`, the operation returns `v` and a nil error, and the only
call made is the binding method of the same name with the receiver
`api.tokenContract`, the converted address arguments in the order the caller
gave them, and the amount unchanged. -/
theorem operations_call_through {σ : Type} (P : PublicKey → Address)
    (b : Backend σ) (s : σ) (api : API) (ctx : Option Context) (key : PrivateKey)
    (fromAddr toAddr : String) (amount : Option BigInt) :
    ((b (Call.BalanceOf api.tokenContract (getCallOpts ctx) (HexToAddress toAddr)) s).1.err
        = none →
      (Prog.run b (API.BalanceOf api ctx toAddr) s).result.1 =
        ⟨(b (Call.BalanceOf api.tokenContract (getCallOpts ctx) (HexToAddress toAddr))
            s).1.value, none⟩ ∧
      (Prog.run b (API.BalanceOf api ctx toAddr) s).calls =
        [Call.BalanceOf api.tokenContract (getCallOpts ctx) (HexToAddress toAddr)]) ∧
    ((b (Call.Allowance api.tokenContract (getCallOpts ctx) (HexToAddress fromAddr)
          (HexToAddress toAddr)) s).1.err = none →
      (Prog.run b (API.AllowanceOf api ctx fromAddr toAddr) s).result.1 =
        ⟨(b (Call.Allowance api.tokenContract (getCallOpts ctx) (HexToAddress fromAddr)
            (HexToAddress toAddr)) s).1.value, none⟩ ∧
      (Prog.run b (API.AllowanceOf api ctx fromAddr toAddr) s).calls =
        [Call.Allowance api.tokenContract (getCallOpts ctx) (HexToAddress fromAddr)
          (HexToAddress toAddr)]) ∧
    ((b (Call.TotalSupply api.tokenContract (getCallOpts ctx)) s).1.err = none →
      (Prog.run b (API.TotalSupply api ctx) s).result.1 =
        ⟨(b (Call.TotalSupply api.tokenContract (getCallOpts ctx)) s).1.value, none⟩ ∧
      (Prog.run b (API.TotalSupply api ctx) s).calls =
        [Call.TotalSupply api.tokenContract (getCallOpts ctx)]) ∧
    ((b (Call.Approve api.tokenContract (getTxOpts P key 48000) (HexToAddress toAddr)
          amount) s).1.err = none →
      (Prog.run b (API.Approve P api ctx key toAddr amount) s).result.1 =
        ⟨(b (Call.Approve api.tokenContract (getTxOpts P key 48000) (HexToAddress toAddr)
            amount) s).1.value, none⟩ ∧
      (Prog.run b (API.Approve P api ctx key toAddr amount) s).calls =
        [Call.Approve api.tokenContract (getTxOpts P key 48000) (HexToAddress toAddr)
          amount]) ∧
    ((b (Call.Transfer api.tokenContract (getTxOpts P key 40000) (HexToAddress toAddr)
          amount) s).1.err = none →
      (Prog.run b (API.Transfer P api ctx key toAddr amount) s).result.1 =
        ⟨(b (Call.Transfer api.tokenContract (getTxOpts P key 40000) (HexToAddress toAddr)
            amount) s).1.value, none⟩ ∧
      (Prog.run b (API.Transfer P api ctx key toAddr amount) s).calls =
        [Call.Transfer api.tokenContract (getTxOpts P key 40000) (HexToAddress toAddr)
          amount]) ∧
    ((b (Call.TransferFrom api.tokenContract (getTxOpts P key 50000) (HexToAddress fromAddr)
          (HexToAddress toAddr) amount) s).1.err = none →
      (Prog.run b (API.TransferFrom P api ctx key fromAddr toAddr amount) s).result.1 =
        ⟨(b (Call.TransferFrom api.tokenContract (getTxOpts P key 50000)
            (HexToAddress fromAddr) (HexToAddress toAddr) amount) s).1.value, none⟩ ∧
      (Prog.run b (API.TransferFrom P api ctx key fromAddr toAddr amount) s).calls =
        [Call.TransferFrom api.tokenContract (getTxOpts P key 50000) (HexToAddress fromAddr)
          (HexToAddress toAddr) amount]) := by
  refine ⟨?_, ?_, ?_, ?_, ?_, ?_⟩ <;> intro h
  · simp [Prog.run, API.BalanceOf, Prog.runFrom, h]
  · simp [Prog.run, API.AllowanceOf, Prog.runFrom, h]
  · simp [Prog.run, API.TotalSupply, Prog.runFrom, h]
  · simp [Prog.run, API.Approve, Prog.runFrom, h]
  · simp [Prog.run, API.Transfer, Prog.runFrom, h]
  · simp [Prog.run, API.TransferFrom, Prog.runFrom, h]

/-- Witness of C4 on the accepting backend: every operation returns the
backend's value, and `TransferFrom` passes the two addresses in the caller's
order. -/
theorem operations_call_through_witness :
    (okBackend (Call.Allowance sampleAPI.tokenContract (getCallOpts none)
        (HexToAddress sampleFrom) (HexToAddress sampleTo)) 0).1.err = none ∧
    (Prog.run okBackend (API.BalanceOf sampleAPI none sampleTo) 0).result.1
      = ⟨some 7, none⟩ ∧
    (Prog.run okBackend (API.AllowanceOf sampleAPI none sampleFrom sampleTo) 0).result.1
      = ⟨some 3, none⟩ ∧
    (Prog.run okBackend (API.TotalSupply sampleAPI none) 0).result.1 = ⟨some 100, none⟩ ∧
    (Prog.run okBackend
        (API.Approve sampleAddressOf sampleAPI none sampleKey sampleTo (some 10)) 0).result.1
      = ⟨some ⟨11⟩, none⟩ ∧
    (Prog.run okBackend
        (API.Transfer sampleAddressOf sampleAPI none sampleKey sampleTo (some 10)) 0).result.1
      = ⟨some ⟨12⟩, none⟩ ∧
    (Prog.run okBackend
        (API.TransferFrom sampleAddressOf sampleAPI none sampleKey sampleFrom sampleTo
          (some 10)) 0).result.1
      = ⟨some ⟨13⟩, none⟩ ∧
    (Prog.run okBackend
        (API.TransferFrom sampleAddressOf sampleAPI none sampleKey sampleFrom sampleTo
          (some 10)) 0).calls =
      [Call.TransferFrom (some ⟨2⟩) (getTxOpts sampleAddressOf sampleKey 50000)
        ⟨List.replicate 19 0 ++ [187]⟩ ⟨List.replicate 19 0 ++ [170]⟩ (some 10)] :=
  have h := operations_call_through sampleAddressOf okBackend 0 sampleAPI none
    sampleKey sampleFrom sampleTo (some 10)
  ⟨by decide, (h.1 (by decide)).1, (h.2.1 (by decide)).1, (h.2.2.1 (by decide)).1,
    (h.2.2.2.1 (by decide)).1, (h.2.2.2.2.1 (by decide)).1, (h.2.2.2.2.2 (by decide)).1,
    by rw [(h.2.2.2.2.2 (by decide)).2]; decide⟩

/-- C5: for every context `ctx`, each read operation makes exactly one backend
call, and the call options of that call have the caller's `ctx` as context and
the pending flag false. -/
theorem read_ops_use_caller_context_not_pending {σ : Type} (b : Backend σ) (s : σ)
    (api : API) (ctx : Option Context) (fromAddr toAddr : String) :
    (∃ opts : CallOpts, opts.Context = ctx ∧ opts.Pending = false ∧
      (Prog.run b (API.BalanceOf api ctx toAddr) s).calls =
        [Call.BalanceOf api.tokenContract opts (HexToAddress toAddr)] ∧
      (Prog.run b (API.AllowanceOf api ctx fromAddr toAddr) s).calls =
        [Call.Allowance api.tokenContract opts (HexToAddress fromAddr)
          (HexToAddress toAddr)] ∧
      (Prog.run b (API.TotalSupply api ctx) s).calls =
        [Call.TotalSupply api.tokenContract opts]) ∧
    (getCallOpts ctx).Context = ctx ∧ (getCallOpts ctx).Pending = false := by
  refine ⟨⟨getCallOpts ctx, rfl, rfl, ?_, ?_, ?_⟩, rfl, rfl⟩
  · simp only [Prog.run, API.BalanceOf, Prog.runFrom]
    split <;> rfl
  · simp only [Prog.run, API.AllowanceOf, Prog.runFrom]
    split <;> rfl
  · simp only [Prog.run, API.TotalSupply, Prog.runFrom]
    split <;> rfl

/-- C7: every one of the six operations, on success and on failure, leaves
the receiver object with the client, gas price and bound token contract it
had before the call. -/
theorem operations_leave_configuration_unchanged {σ : Type} (P : PublicKey → Address)
    (b : Backend σ) (s : σ) (api : API) (ctx : Option Context) (key : PrivateKey)
    (fromAddr toAddr : String) (amount : Option BigInt) :
    (Prog.run b (API.BalanceOf api ctx toAddr) s).result.2 = api ∧
    (Prog.run b (API.AllowanceOf api ctx fromAddr toAddr) s).result.2 = api ∧
    (Prog.run b (API.TotalSupply api ctx) s).result.2 = api ∧
    (Prog.run b (API.Approve P api ctx key toAddr amount) s).result.2 = api ∧
    (Prog.run b (API.Transfer P api ctx key toAddr amount) s).result.2 = api ∧
    (Prog.run b (API.TransferFrom P api ctx key fromAddr toAddr amount) s).result.2 = api := by
  refine ⟨?_, ?_, ?_, ?_, ?_, ?_⟩
  · simp only [Prog.run, API.BalanceOf, Prog.runFrom]
    split <;> rfl
  · simp only [Prog.run, API.AllowanceOf, Prog.runFrom]
    split <;> rfl
  · simp only [Prog.run, API.TotalSupply, Prog.runFrom]
    split <;> rfl
  · simp only [Prog.run, API.Approve, Prog.runFrom]
    split <;> rfl
  · simp only [Prog.run, API.Transfer, Prog.runFrom]
    split <;> rfl
  · simp only [Prog.run, API.TransferFrom, Prog.runFrom]
    split <;> rfl
/-- C8: for every backend, arguments and read operation, when the first call
leaves the backend state as it found it, a second call with the same arguments,
made on the receiver object the first call left behind, returns the same
result pair as the first. -/
theorem reads_repeat_on_unchanged_backend {σ : Type} (b : Backend σ) (s : σ) (api : API)
    (ctx : Option Context) (fromAddr toAddr : String) :
    ((Prog.run b (API.BalanceOf api ctx toAddr) s).state = s →
      (Prog.run b
          (API.BalanceOf (Prog.run b (API.BalanceOf api ctx toAddr) s).result.2 ctx toAddr)
          (Prog.run b (API.BalanceOf api ctx toAddr) s).state).result.1 =
        (Prog.run b (API.BalanceOf api ctx toAddr) s).result.1) ∧
    ((Prog.run b (API.AllowanceOf api ctx fromAddr toAddr) s).state = s →
      (Prog.run b
          (API.AllowanceOf (Prog.run b (API.AllowanceOf api ctx fromAddr toAddr) s).result.2
            ctx fromAddr toAddr)
          (Prog.run b (API.AllowanceOf api ctx fromAddr toAddr) s).state).result.1 =
        (Prog.run b (API.AllowanceOf api ctx fromAddr toAddr) s).result.1) ∧
    ((Prog.run b (API.TotalSupply api ctx) s).state = s →
      (Prog.run b
          (API.TotalSupply (Prog.run b (API.TotalSupply api ctx) s).result.2 ctx)
          (Prog.run b (API.TotalSupply api ctx) s).state).result.1 =
        (Prog.run b (API.TotalSupply api ctx) s).result.1) := by
  refine ⟨?_, ?_, ?_⟩ <;> intro h
  · have hapi : (Prog.run b (API.BalanceOf api ctx toAddr) s).result.2 = api := by
      simp only [Prog.run, API.BalanceOf, Prog.runFrom]
      split <;> rfl
    rw [hapi, h]
  · have hapi : (Prog.run b (API.AllowanceOf api ctx fromAddr toAddr) s).result.2 = api := by
      simp only [Prog.run, API.AllowanceOf, Prog.runFrom]
      split <;> rfl
    rw [hapi, h]
  · have hapi : (Prog.run b (API.TotalSupply api ctx) s).result.2 = api := by
      simp only [Prog.run, API.TotalSupply, Prog.runFrom]
      split <;> rfl
    rw [hapi, h]

/-- Witness of C8 on the ledger backend in state 42, which reads leave alone:
the second call of each read returns 42 again. -/
theorem reads_repeat_on_unchanged_backend_witness :
    (Prog.run ledgerBackend (API.BalanceOf sampleAPI none sampleTo) 42).state = 42 ∧
    (Prog.run ledgerBackend (API.BalanceOf sampleAPI none sampleTo) 42).result.1
      = ⟨some 42, none⟩ ∧
    (Prog.run ledgerBackend
        (API.BalanceOf
          (Prog.run ledgerBackend (API.BalanceOf sampleAPI none sampleTo) 42).result.2
          none sampleTo)
        (Prog.run ledgerBackend (API.BalanceOf sampleAPI none sampleTo) 42).state).result.1
      = ⟨some 42, none⟩ ∧
    (Prog.run ledgerBackend
        (API.AllowanceOf
          (Prog.run ledgerBackend
            (API.AllowanceOf sampleAPI none sampleFrom sampleTo) 42).result.2
          none sampleFrom sampleTo)
        (Prog.run ledgerBackend
          (API.AllowanceOf sampleAPI none sampleFrom sampleTo) 42).state).result.1
      = ⟨some 42, none⟩ ∧
    (Prog.run ledgerBackend
        (API.TotalSupply (Prog.run ledgerBackend (API.TotalSupply sampleAPI none) 42).result.2
          none)
        (Prog.run ledgerBackend (API.TotalSupply sampleAPI none) 42).state).result.1
      = ⟨some 42, none⟩ :=
  have h := reads_repeat_on_unchanged_backend ledgerBackend 42 sampleAPI none sampleFrom
    sampleTo
  ⟨by decide, by decide, by rw [h.1 (by decide)]; decide, by rw [h.2.1 (by decide)]; decide,
    by rw [h.2.2 (by decide)]; decide⟩

/-- C10: the configured gas price reaches no write operation.  Replacing the
gas price of a client by any other value changes neither the calls made, nor
the result, nor the backend state; the transaction options handed to the
backend have a nil gas price (and nil nonce, value and context), the sender and
signer of the key, and the fixed gas limit of the operation. -/
theorem gas_price_setting_has_no_effect {σ : Type} (P : PublicKey → Address)
    (b : Backend σ) (s : σ) (api : API) (g : Option BigInt) (ctx : Option Context)
    (key : PrivateKey) (fromAddr toAddr : String) (amount : Option BigInt) :
    ((Prog.run b (API.Approve P { api with gasPrice := g } ctx key toAddr amount) s).calls =
        (Prog.run b (API.Approve P api ctx key toAddr amount) s).calls ∧
      (Prog.run b (API.Approve P { api with gasPrice := g } ctx key toAddr amount)
          s).result.1 =
        (Prog.run b (API.Approve P api ctx key toAddr amount) s).result.1 ∧
      (Prog.run b (API.Approve P { api with gasPrice := g } ctx key toAddr amount) s).state =
        (Prog.run b (API.Approve P api ctx key toAddr amount) s).state ∧
      (Prog.run b (API.Approve P api ctx key toAddr amount) s).calls =
        [Call.Approve api.tokenContract
          { From := P key.PublicKey, Nonce := none, Signer := some key, Value := none,
            GasPrice := none, GasLimit := 48000, Context := none }
          (HexToAddress toAddr) amount]) ∧
    ((Prog.run b (API.Transfer P { api with gasPrice := g } ctx key toAddr amount) s).calls =
        (Prog.run b (API.Transfer P api ctx key toAddr amount) s).calls ∧
      (Prog.run b (API.Transfer P { api with gasPrice := g } ctx key toAddr amount)
          s).result.1 =
        (Prog.run b (API.Transfer P api ctx key toAddr amount) s).result.1 ∧
      (Prog.run b (API.Transfer P { api with gasPrice := g } ctx key toAddr amount) s).state =
        (Prog.run b (API.Transfer P api ctx key toAddr amount) s).state ∧
      (Prog.run b (API.Transfer P api ctx key toAddr amount) s).calls =
        [Call.Transfer api.tokenContract
          { From := P key.PublicKey, Nonce := none, Signer := some key, Value := none,
            GasPrice := none, GasLimit := 40000, Context := none }
          (HexToAddress toAddr) amount]) ∧
    ((Prog.run b (API.TransferFrom P { api with gasPrice := g } ctx key fromAddr toAddr amount)
          s).calls =
        (Prog.run b (API.TransferFrom P api ctx key fromAddr toAddr amount) s).calls ∧
      (Prog.run b (API.TransferFrom P { api with gasPrice := g } ctx key fromAddr toAddr amount)
          s).result.1 =
        (Prog.run b (API.TransferFrom P api ctx key fromAddr toAddr amount) s).result.1 ∧
      (Prog.run b (API.TransferFrom P { api with gasPrice := g } ctx key fromAddr toAddr amount)
          s).state =
        (Prog.run b (API.TransferFrom P api ctx key fromAddr toAddr amount) s).state ∧
      (Prog.run b (API.TransferFrom P api ctx key fromAddr toAddr amount) s).calls =
        [Call.TransferFrom api.tokenContract
          { From := P key.PublicKey, Nonce := none, Signer := some key, Value := none,
            GasPrice := none, GasLimit := 50000, Context := none }
          (HexToAddress fromAddr) (HexToAddress toAddr) amount]) := by
  refine ⟨⟨?_, ?_, ?_, ?_⟩, ⟨?_, ?_, ?_, ?_⟩, ⟨?_, ?_, ?_, ?_⟩⟩
  all_goals
    simp only [Prog.run, API.Approve, API.Transfer, API.TransferFrom, Prog.runFrom]
    split <;> rfl
/-- C2, counterexample: the string `zz` is malformed (too short, and `z` is
not a hex digit), yet `BalanceOf` and `Transfer` called with it against the
accepting backend each make a backend call and return the backend's value with
a nil error. -/
theorem malformed_address_is_not_rejected :
    isHexAddress "zz" = false ∧
    (Prog.run okBackend (API.BalanceOf sampleAPI none "zz") 0).result.1 = ⟨some 7, none⟩ ∧
    (Prog.run okBackend (API.BalanceOf sampleAPI none "zz") 0).calls =
      [Call.BalanceOf (some ⟨2⟩) (getCallOpts none) (HexToAddress "zz")] ∧
    (Prog.run okBackend
        (API.Transfer sampleAddressOf sampleAPI none sampleKey "zz" (some 10)) 0).result.1 =
      ⟨some ⟨12⟩, none⟩ ∧
    (Prog.run okBackend
        (API.Transfer sampleAddressOf sampleAPI none sampleKey "zz" (some 10)) 0).calls.length
      = 1 := by
  decide

/-- C2, amended: the five operations that take address strings do not check
them.  For every string, well-formed or not, the operation makes exactly one
backend call, passing `HexToAddress` of each string, and the error it returns
is the error of that backend call and nothing else. -/
theorem address_strings_are_converted_not_checked {σ : Type} (P : PublicKey → Address)
    (b : Backend σ) (s : σ) (api : API) (ctx : Option Context) (key : PrivateKey)
    (fromAddr toAddr : String) (amount : Option BigInt) :
    ((Prog.run b (API.BalanceOf api ctx toAddr) s).calls =
        [Call.BalanceOf api.tokenContract (getCallOpts ctx) (HexToAddress toAddr)] ∧
      (Prog.run b (API.BalanceOf api ctx toAddr) s).result.1.err =
        (b (Call.BalanceOf api.tokenContract (getCallOpts ctx) (HexToAddress toAddr))
          s).1.err) ∧
    ((Prog.run b (API.AllowanceOf api ctx fromAddr toAddr) s).calls =
        [Call.Allowance api.tokenContract (getCallOpts ctx) (HexToAddress fromAddr)
          (HexToAddress toAddr)] ∧
      (Prog.run b (API.AllowanceOf api ctx fromAddr toAddr) s).result.1.err =
        (b (Call.Allowance api.tokenContract (getCallOpts ctx) (HexToAddress fromAddr)
          (HexToAddress toAddr)) s).1.err) ∧
    ((Prog.run b (API.Approve P api ctx key toAddr amount) s).calls =
        [Call.Approve api.tokenContract (getTxOpts P key 48000) (HexToAddress toAddr)
          amount] ∧
      (Prog.run b (API.Approve P api ctx key toAddr amount) s).result.1.err =
        (b (Call.Approve api.tokenContract (getTxOpts P key 48000) (HexToAddress toAddr)
          amount) s).1.err) ∧
    ((Prog.run b (API.Transfer P api ctx key toAddr amount) s).calls =
        [Call.Transfer api.tokenContract (getTxOpts P key 40000) (HexToAddress toAddr)
          amount] ∧
      (Prog.run b (API.Transfer P api ctx key toAddr amount) s).result.1.err =
        (b (Call.Transfer api.tokenContract (getTxOpts P key 40000) (HexToAddress toAddr)
          amount) s).1.err) ∧
    ((Prog.run b (API.TransferFrom P api ctx key fromAddr toAddr amount) s).calls =
        [Call.TransferFrom api.tokenContract (getTxOpts P key 50000) (HexToAddress fromAddr)
          (HexToAddress toAddr) amount] ∧
      (Prog.run b (API.TransferFrom P api ctx key fromAddr toAddr amount) s).result.1.err =
        (b (Call.TransferFrom api.tokenContract (getTxOpts P key 50000)
          (HexToAddress fromAddr) (HexToAddress toAddr) amount) s).1.err) := by
  refine ⟨⟨?_, ?_⟩, ⟨?_, ?_⟩, ⟨?_, ?_⟩, ⟨?_, ?_⟩, ⟨?_, ?_⟩⟩
  all_goals
    simp only [Prog.run, API.BalanceOf, API.AllowanceOf, API.Approve, API.Transfer,
      API.TransferFrom, Prog.runFrom]
    split <;> first | rfl | simp_all [Prog.runFrom]

/-- C6, counterexample: `NewAPI` called with the malformed token contract
address `zz` against the accepting backend returns a client and a nil error. -/
theorem NewAPI_accepts_malformed_address :
    isHexAddress "zz" = false ∧
    (Prog.run okBackend (NewAPI "http://localhost:8545" (some 5) "zz") 0).result =
      ⟨some ⟨some ⟨1⟩, some 5, some ⟨2⟩⟩, none⟩ := by
  decide

/-- C6, amended: `NewAPI` does not check the token contract address.  When
dialling returns an error, `NewAPI` returns nil and that error and `Dial` is
the only call made.  Otherwise it calls `NewStandardToken` once with
`HexToAddress` of the address string and the dialled client; when that returns
an error, `NewAPI` returns nil and that error, and when it does not, `NewAPI`
returns a client holding the dialled client, the gas price and the binding,
for every address string. -/
theorem NewAPI_fails_only_with_dial_or_bind {σ : Type} (b : Backend σ) (s : σ)
    (ethEndpoint : String) (gasPrice : Option BigInt) (tokenContractAddress : String) :
    ((b (Call.Dial ethEndpoint) s).1.err ≠ none →
      (Prog.run b (NewAPI ethEndpoint gasPrice tokenContractAddress) s).result =
        ⟨none, (b (Call.Dial ethEndpoint) s).1.err⟩ ∧
      (Prog.run b (NewAPI ethEndpoint gasPrice tokenContractAddress) s).calls =
        [Call.Dial ethEndpoint]) ∧
    ((b (Call.Dial ethEndpoint) s).1.err = none →
      (Prog.run b (NewAPI ethEndpoint gasPrice tokenContractAddress) s).calls =
        [Call.Dial ethEndpoint,
          Call.NewStandardToken (HexToAddress tokenContractAddress)
            (b (Call.Dial ethEndpoint) s).1.value] ∧
      ((b (Call.NewStandardToken (HexToAddress tokenContractAddress)
            (b (Call.Dial ethEndpoint) s).1.value) (b (Call.Dial ethEndpoint) s).2).1.err
          ≠ none →
        (Prog.run b (NewAPI ethEndpoint gasPrice tokenContractAddress) s).result =
          ⟨none, (b (Call.NewStandardToken (HexToAddress tokenContractAddress)
            (b (Call.Dial ethEndpoint) s).1.value) (b (Call.Dial ethEndpoint) s).2).1.err⟩) ∧
      ((b (Call.NewStandardToken (HexToAddress tokenContractAddress)
            (b (Call.Dial ethEndpoint) s).1.value) (b (Call.Dial ethEndpoint) s).2).1.err
          = none →
        (Prog.run b (NewAPI ethEndpoint gasPrice tokenContractAddress) s).result =
          ⟨some
            { client := (b (Call.Dial ethEndpoint) s).1.value
              gasPrice := gasPrice
              tokenContract :=
                (b (Call.NewStandardToken (HexToAddress tokenContractAddress)
                  (b (Call.Dial ethEndpoint) s).1.value)
                  (b (Call.Dial ethEndpoint) s).2).1.value },
            none⟩)) := by
  refine ⟨fun h => ?_, fun h => ⟨?_, fun h2 => ?_, fun h2 => ?_⟩⟩
  · simp [Prog.run, NewAPI, Prog.runFrom, h]
  · simp only [Prog.run, NewAPI, Prog.runFrom]
    simp only [h, ne_eq, not_true_eq_false, if_false]
    simp only [Prog.runFrom]
    split <;> rfl
  · simp only [Prog.run, NewAPI, Prog.runFrom]
    simp only [h, ne_eq, not_true_eq_false, if_false]
    simp [Prog.runFrom, h2]
  · simp only [Prog.run, NewAPI, Prog.runFrom]
    simp only [h, ne_eq, not_true_eq_false, if_false]
    simp [Prog.runFrom, h2]

/-- Witness of C6 (amended): against the failing backend `NewAPI` returns the
dial error after the single call `Dial`; when only binding fails it returns the
binding error after two calls; against the accepting backend it returns a
client. -/
theorem NewAPI_fails_only_with_dial_or_bind_witness :
    (downBackend (Call.Dial "http://localhost:8545") 0).1.err ≠ none ∧
    (Prog.run downBackend (NewAPI "http://localhost:8545" (some 5) sampleTo) 0).result =
      ⟨none, some ⟨"dial: connection refused"⟩⟩ ∧
    (Prog.run downBackend (NewAPI "http://localhost:8545" (some 5) sampleTo) 0).calls =
      [Call.Dial "http://localhost:8545"] ∧
    (unboundBackend (Call.Dial "http://localhost:8545") 0).1.err = none ∧
    (Prog.run unboundBackend (NewAPI "http://localhost:8545" (some 5) sampleTo) 0).result =
      ⟨none, some ⟨"bind: bad abi"⟩⟩ ∧
    (okBackend (Call.Dial "http://localhost:8545") 0).1.err = none ∧
    (Prog.run okBackend (NewAPI "http://localhost:8545" (some 5) sampleTo) 0).calls.length
      = 2 ∧
    (Prog.run okBackend (NewAPI "http://localhost:8545" (some 5) sampleTo) 0).result =
      ⟨some sampleAPI, none⟩ :=
  have hd := (NewAPI_fails_only_with_dial_or_bind downBackend 0 "http://localhost:8545"
    (some 5) sampleTo).1 (by decide)
  have hu := (NewAPI_fails_only_with_dial_or_bind unboundBackend 0 "http://localhost:8545"
    (some 5) sampleTo).2 (by decide)
  have ho := (NewAPI_fails_only_with_dial_or_bind okBackend 0 "http://localhost:8545"
    (some 5) sampleTo).2 (by decide)
  ⟨by decide, hd.1, hd.2, by decide, by rw [hu.2.1 (by decide)]; decide, by decide,
    by rw [ho.1]; rfl, by rw [ho.2.2 (by decide)]; decide⟩

/-! ### Address strings -/

/-- A hex digit character is one UTF-8 byte, its code. -/
theorem utf8_of_hexChar : ∀ c ∈ hexChars,
    (String.utf8EncodeChar c).map UInt8.toNat = [c.toNat] := by
  decide

/-- A hex digit character has a value below 16, shared with its lowercase
form, and the lowercase digit of that value is the lowercase character. -/
theorem value_of_hexChar : ∀ c ∈ hexChars,
    ∃ v, v < 16 ∧ fromHexChar c.toNat = some v ∧ fromHexChar c.toLower.toNat = some v ∧
      hexDigit v = c.toLower := by
  decide

/-- No hex digit character is `x` or `X`. -/
theorem hexChar_ne_x : ∀ c ∈ hexChars, (c.toNat == 120 || c.toNat == 88) = false := by
  decide

theorem goBytes_of_hexChars : ∀ cs : List Char, (∀ c ∈ cs, c ∈ hexChars) →
    (cs.flatMap String.utf8EncodeChar).map UInt8.toNat = cs.map Char.toNat
  | [], _ => rfl
  | c :: cs, h => by
    have hc := utf8_of_hexChar c (h c (List.mem_cons_self c cs))
    have ih := goBytes_of_hexChars cs fun d hd => h d (List.mem_cons_of_mem c hd)
    simp only [List.flatMap_cons, List.map_append, List.map_cons, hc, ih]
    rfl

theorem Hex2Bytes_of_hexChars : ∀ cs : List Char, (∀ c ∈ cs, c ∈ hexChars) →
    cs.length % 2 = 0 →
    (Hex2Bytes (cs.map Char.toNat)).length = cs.length / 2 ∧
    ((Hex2Bytes (cs.map Char.toNat)).flatMap fun v => [hexDigit (v / 16), hexDigit (v % 16)])
      = cs.map Char.toLower ∧
    Hex2Bytes (cs.map Char.toNat) = Hex2Bytes ((cs.map Char.toLower).map Char.toNat)
  | [], _, _ => ⟨rfl, rfl, rfl⟩
  | [_], _, h => by simp at h
  | a :: b :: cs, h, hlen => by
    obtain ⟨x, hx, hax, hax2, hxa⟩ := value_of_hexChar a (h a (by simp))
    obtain ⟨y, hy, hby, hby2, hyb⟩ := value_of_hexChar b (h b (by simp))
    have hlen2 : cs.length % 2 = 0 := by
      simp only [List.length_cons] at hlen
      omega
    obtain ⟨ih1, ih2, ih3⟩ :=
      Hex2Bytes_of_hexChars cs (fun d hd => h d (by simp [hd])) hlen2
    have hdiv : (x * 16 + y) / 16 = x := by omega
    have hmod : (x * 16 + y) % 16 = y := by omega
    refine ⟨?_, ?_, ?_⟩
    · simp only [List.map_cons, Hex2Bytes, hax, hby, List.length_cons, ih1]
      omega
    · simp only [List.map_cons, Hex2Bytes, hax, hby, List.flatMap_cons, ih2, hdiv, hmod,
        hxa, hyb]
      rfl
    · simp only [List.map_cons, Hex2Bytes, hax, hby, hax2, hby2, ih3]

theorem has0x_of_hexChars (cs : List Char) (h : ∀ c ∈ cs, c ∈ hexChars)
    (hlen : cs.length = 40) : has0x (cs.map Char.toNat) = false := by
  match cs, h, hlen with
  | a :: b :: rest, h, _ =>
    have hb := hexChar_ne_x b (h b (by simp))
    simp only [List.map_cons]
    unfold has0x
    split
    · rename_i heq
      simp only [List.cons.injEq] at heq
      rw [← heq.2.1]
      exact hb
    · rfl

theorem BytesToAddress_of_length (b : List Nat) (h : b.length = 20) :
    BytesToAddress b = ⟨b⟩ := by
  simp [BytesToAddress, h]

theorem hexDigits_cases (s : String) :
    (∃ rest, s.data = '0' :: 'x' :: rest ∧ hexDigits s = rest) ∨ hexDigits s = s.data := by
  unfold hexDigits
  split
  · rename_i rest heq
    exact Or.inl ⟨rest, heq, rfl⟩
  · exact Or.inr rfl

/-- On a well-formed address string `HexToAddress` is the decoding of its digits. -/
theorem HexToAddress_of_isHexAddress (s : String) (hs : isHexAddress s = true) :
    HexToAddress s = ⟨Hex2Bytes ((hexDigits s).map Char.toNat)⟩ ∧
    (hexDigits s).length = 40 ∧ ∀ c ∈ hexDigits s, c ∈ hexChars := by
  simp only [isHexAddress, Bool.and_eq_true, beq_iff_eq, List.all_eq_true,
    decide_eq_true_eq] at hs
  obtain ⟨hlen, hall⟩ := hs
  refine ⟨?_, hlen, hall⟩
  have hdec := Hex2Bytes_of_hexChars (hexDigits s) hall (by omega)
  have hgoal : FromHex s = Hex2Bytes ((hexDigits s).map Char.toNat) := by
    rcases hexDigits_cases s with ⟨rest, heq, hd⟩ | hd
    · rw [hd] at hlen hall ⊢
      have hb : goBytes s = 48 :: 120 :: rest.map Char.toNat := by
        simp only [goBytes, heq, List.flatMap_cons, List.map_append]
        rw [goBytes_of_hexChars rest hall]
        rfl
      simp [FromHex, hb, has0x, hlen]
    · rw [hd] at hlen hall ⊢
      have hb : goBytes s = s.data.map Char.toNat := goBytes_of_hexChars s.data hall
      have h0 := has0x_of_hexChars s.data hall hlen
      simp [FromHex, hb, h0, hlen]
  rw [HexToAddress, hgoal]
  exact BytesToAddress_of_length _ (by omega)

/-- C9: for every well-formed address string (40 hex characters, with or
without a leading `0x`) `HexToAddress` yields 20 bytes whose hex rendering is
`0x` followed by the digits of the string in lowercase; and two well-formed
strings give the same address exactly when their digits agree up to letter
case. -/
theorem HexToAddress_round_trip (s t : String) (hs : isHexAddress s = true)
    (ht : isHexAddress t = true) :
    (HexToAddress s).bytes.length = 20 ∧
    (HexToAddress s).Hex = ⟨'0' :: 'x' :: (hexDigits s).map Char.toLower⟩ ∧
    (HexToAddress s = HexToAddress t ↔
      (hexDigits s).map Char.toLower = (hexDigits t).map Char.toLower) := by
  obtain ⟨hS, hlenS, hallS⟩ := HexToAddress_of_isHexAddress s hs
  obtain ⟨hT, hlenT, hallT⟩ := HexToAddress_of_isHexAddress t ht
  obtain ⟨s1, s2, s3⟩ := Hex2Bytes_of_hexChars (hexDigits s) hallS (by omega)
  obtain ⟨_, t2, t3⟩ := Hex2Bytes_of_hexChars (hexDigits t) hallT (by omega)
  refine ⟨?_, ?_, ?_, ?_⟩
  · rw [hS]
    simp only [s1, hlenS]
  · rw [hS]
    simp only [Address.Hex, s2]
  · intro h
    rw [hS, hT] at h
    have hb : Hex2Bytes ((hexDigits s).map Char.toNat)
        = Hex2Bytes ((hexDigits t).map Char.toNat) := by
      simpa using h
    rw [← s2, ← t2, hb]
  · intro h
    rw [hS, hT, s3, t3, h]

/-- Witness of C9: the mixed-case string and its lowercase form without `0x`
are both well-formed and give the same 20 bytes. -/
theorem HexToAddress_round_trip_witness :
    isHexAddress "0xdAC17F958D2ee523a2206206994597C13D831ec7" = true ∧
    isHexAddress "dac17f958d2ee523a2206206994597c13d831ec7" = true ∧
    (HexToAddress "0xdAC17F958D2ee523a2206206994597C13D831ec7").Hex =
      "0xdac17f958d2ee523a2206206994597c13d831ec7" ∧
    HexToAddress "0xdAC17F958D2ee523a2206206994597C13D831ec7" =
      HexToAddress "dac17f958d2ee523a2206206994597c13d831ec7" :=
  have h := HexToAddress_round_trip "0xdAC17F958D2ee523a2206206994597C13D831ec7"
    "dac17f958d2ee523a2206206994597c13d831ec7" (by decide) (by decide)
  ⟨by decide, by decide, by rw [h.2.1]; decide, h.2.2.2 (by decide)⟩
end Erc20Api
